import Mathlib

/-!
Verification of the Tax-Prep calculation engine
(`backend/app/tax_engine/`): parameter tables, bracket math, the
Qualified Dividends and Capital Gain worksheet, the five form
calculators, the `TaxEngine` orchestrator and the dependency-resolving
`TaxFormSolver`.

Monetary values are modelled as exact rationals.  Python's
`round(value, 2)` (applied once per line by `BaseTaxForm.set_line`) is
modelled by `round2`, rounding half-up to the cent.
-/

namespace TaxPrep

/-- Two-decimal (cent) rounding, the `round(value, 2)` applied by
`BaseTaxForm.set_line` to every stored line value. -/
def round2 (x : ℚ) : ℚ := (round (x * 100) : ℤ) / 100

/-- A rational that is a whole number of cents.  Caller-built snapshots
(`_build_return_data`) populate every monetary field from currency
amounts, which are whole cents. -/
def IsCents (x : ℚ) : Prop := ∃ n : ℤ, x = (n : ℚ) / 100

/-- Filing statuses supported by the engine (`parameters.py` keys its
tables by exactly these two). -/
inductive FilingStatus
  | single
  | married_filing_jointly
deriving DecidableEq

/-- One row of a bracket table (`parameters.TaxBracket`); `none` as
`upper_limit` models `float('inf')` on the top bracket. -/
structure TaxBracket where
  rate : ℚ
  upper_limit : Option ℚ
deriving DecidableEq

/-- `parameters.STANDARD_DEDUCTION`. -/
def STANDARD_DEDUCTION : FilingStatus → ℚ
  | .single => 15750
  | .married_filing_jointly => 31500

/-- `parameters.ORDINARY_TAX_BRACKETS`. -/
def ORDINARY_TAX_BRACKETS : FilingStatus → List TaxBracket
  | .single =>
      [⟨10/100, some 11925⟩, ⟨12/100, some 48475⟩, ⟨22/100, some 103350⟩,
       ⟨24/100, some 197300⟩, ⟨32/100, some 250525⟩, ⟨35/100, some 626350⟩,
       ⟨37/100, none⟩]
  | .married_filing_jointly =>
      [⟨10/100, some 23850⟩, ⟨12/100, some 96950⟩, ⟨22/100, some 206700⟩,
       ⟨24/100, some 394600⟩, ⟨32/100, some 501050⟩, ⟨35/100, some 751600⟩,
       ⟨37/100, none⟩]

/-- `parameters.LTCG_TAX_BRACKETS`. -/
def LTCG_TAX_BRACKETS : FilingStatus → List TaxBracket
  | .single => [⟨0, some 48350⟩, ⟨15/100, some 533400⟩, ⟨20/100, none⟩]
  | .married_filing_jointly => [⟨0, some 96700⟩, ⟨15/100, some 600050⟩, ⟨20/100, none⟩]

/-- `parameters.CAPITAL_LOSS_LIMIT`. -/
def CAPITAL_LOSS_LIMIT : ℚ := 3000

/-- `parameters.MEDICAL_EXPENSE_AGI_FLOOR`. -/
def MEDICAL_EXPENSE_AGI_FLOOR : ℚ := 75/1000

/-- `parameters.SALT_CAP_BASE`. -/
def SALT_CAP_BASE : ℚ := 40000

/-- `parameters.SALT_CAP_FLOOR`. -/
def SALT_CAP_FLOOR : ℚ := 10000

/-- `parameters.SALT_PHASE_DOWN_THRESHOLD` (same value for both statuses). -/
def SALT_PHASE_DOWN_THRESHOLD : FilingStatus → ℚ := fun _ => 500000

/-- `parameters.SALT_PHASE_DOWN_RATE`. -/
def SALT_PHASE_DOWN_RATE : ℚ := 30/100

/-- The progressive-bracket loop body shared verbatim by
`qualified_dividends._calculate_bracket_tax` and
`Form1040._calculate_ordinary_tax`: walk the brackets, taxing in each
one the portion between the previous limit and `min(income, upper)`.
After a bracket with `upper_limit = inf` the source's next comparison
`income <= inf` always stops the loop; passing `income` itself as the
new previous limit has the same effect (`income <= income`). -/
def bracketTaxGo (income : ℚ) : List TaxBracket → ℚ → ℚ → ℚ
  | [], _, tax => tax
  | b :: rest, prev_limit, tax =>
    if income ≤ prev_limit then tax
    else
      let upper := b.upper_limit.getD income
      let taxable_in_bracket := min income upper - prev_limit
      bracketTaxGo income rest upper
        (if 0 < taxable_in_bracket then tax + taxable_in_bracket * b.rate else tax)

/-- Which bracket table `_calculate_bracket_tax` selects. -/
inductive BracketType
  | ordinary
  | ltcg

/-- `qualified_dividends._calculate_bracket_tax`. -/
def calculate_bracket_tax (income : ℚ) (fs : FilingStatus) (bt : BracketType) : ℚ :=
  round2 (bracketTaxGo income
    (match bt with
     | .ordinary => ORDINARY_TAX_BRACKETS fs
     | .ltcg => LTCG_TAX_BRACKETS fs) 0 0)

/-- Loop of `qualified_dividends._calculate_stacked_ltcg_tax`: stack the
preferential income on top of `income_floor`, skipping brackets already
below the floor.  The `none` (infinite) bracket absorbs all remaining
income, exactly as `min(remaining, inf - floor)` does in the source. -/
def stackedGo : List TaxBracket → ℚ → ℚ → ℚ → ℚ
  | [], _, _, tax => tax
  | b :: rest, income_floor, remaining, tax =>
    if remaining ≤ 0 then tax
    else
      match b.upper_limit with
      | some u =>
        if u ≤ income_floor then stackedGo rest income_floor remaining tax
        else
          let taxable_in_bracket := min remaining (u - income_floor)
          stackedGo rest (income_floor + taxable_in_bracket)
            (remaining - taxable_in_bracket) (tax + taxable_in_bracket * b.rate)
      | none =>
        stackedGo rest (income_floor + remaining) (remaining - remaining)
          (tax + remaining * b.rate)

/-- `qualified_dividends._calculate_stacked_ltcg_tax`. -/
def calculate_stacked_ltcg_tax (ordinary_income preferential_income : ℚ)
    (fs : FilingStatus) : ℚ :=
  round2 (stackedGo (LTCG_TAX_BRACKETS fs) ordinary_income preferential_income 0)

/-- `qualified_dividends.calculate_tax_with_qdcg` — the Qualified
Dividends and Capital Gain Tax Worksheet. -/
def calculate_tax_with_qdcg (taxable_income qualified_dividends net_lt_capital_gain : ℚ)
    (fs : FilingStatus) : ℚ :=
  if taxable_income ≤ 0 then 0
  else
    let preferential_income := min (qualified_dividends + net_lt_capital_gain) taxable_income
    let ordinary_income := taxable_income - preferential_income
    let ordinary_tax := calculate_bracket_tax ordinary_income fs .ordinary
    let preferential_tax := calculate_stacked_ltcg_tax ordinary_income preferential_income fs
    let total := ordinary_tax + preferential_tax
    let all_ordinary_tax := calculate_bracket_tax taxable_income fs .ordinary
    min total all_ordinary_tax

/-! ### Return snapshot (the `return_data` dict built by `_build_return_data`) -/

/-- One `w2_incomes` entry (only the fields the engine reads). -/
structure W2Income where
  box_1_wages : ℚ
  box_2_fed_tax_withheld : ℚ
deriving DecidableEq

/-- One `interest_1099s` entry. -/
structure Interest1099 where
  box_1_interest : ℚ
  box_4_fed_tax_withheld : ℚ
  box_8_tax_exempt_interest : ℚ
deriving DecidableEq

/-- One `dividend_1099s` entry. -/
structure Dividend1099 where
  box_1a_ordinary_dividends : ℚ
  box_1b_qualified_dividends : ℚ
  box_2a_total_capital_gain : ℚ
  box_4_fed_tax_withheld : ℚ
deriving DecidableEq

/-- One `retirement_1099rs` entry. -/
structure Retirement1099R where
  box_1_gross_distribution : ℚ
  box_2a_taxable_amount : ℚ
  box_4_fed_tax_withheld : ℚ
deriving DecidableEq

/-- One `government_1099gs` entry. -/
structure Government1099G where
  box_1_unemployment : ℚ
  box_4_fed_tax_withheld : ℚ
deriving DecidableEq

/-- One `ssa_1099s` entry. -/
structure SSA1099 where
  box_5_net_benefits : ℚ
  box_6_voluntary_withholding : ℚ
deriving DecidableEq

/-- One `capital_asset_sales` entry; `holding_period = none` models a
record without the key (Form 8949 defaults it to `"short_term"`). -/
structure CapitalAssetSale where
  proceeds : ℚ
  cost_basis : ℚ
  adjustment_amount : ℚ
  holding_period : Option String
deriving DecidableEq

/-- The `itemized_deduction` record read by Schedule A. -/
structure ItemizedDeduction where
  medical_expenses : ℚ
  state_income_tax_paid : ℚ
  real_estate_tax_paid : ℚ
  personal_property_tax : ℚ
  mortgage_interest_1098 : ℚ
  mortgage_interest_not_1098 : ℚ
  mortgage_points : ℚ
  investment_interest : ℚ
  cash_charitable : ℚ
  noncash_charitable : ℚ
  carryover_charitable : ℚ
  casualty_loss : ℚ
  other_deductions : ℚ
deriving DecidableEq

/-- The return snapshot (`return_data`).  `agi` is the `"agi"` key that
`Form1040.calculate` writes back (`return_data["agi"] = agi`); it is
absent (`none`) in caller-built snapshots.  `itemized_deduction = none`
covers both a missing record and the empty dict, which the engine's
truthiness checks treat alike.  The `dependents` list is never read by
any calculator and is omitted. -/
structure Snapshot where
  filing_status : FilingStatus
  w2_incomes : List W2Income
  interest_1099s : List Interest1099
  dividend_1099s : List Dividend1099
  retirement_1099rs : List Retirement1099R
  government_1099gs : List Government1099G
  ssa_1099s : List SSA1099
  capital_asset_sales : List CapitalAssetSale
  itemized_deduction : Option ItemizedDeduction
  agi : Option ℚ
deriving DecidableEq

/-! ### Schedule B -/

/-- Lines stored by `ScheduleB.calculate`. -/
structure ScheduleBRes where
  line_1 : ℚ
  line_4 : ℚ
  line_5 : ℚ
  line_6 : ℚ
  qualified_dividends : ℚ
  tax_exempt_interest : ℚ
  fed_tax_withheld : ℚ
deriving DecidableEq

/-- `ScheduleB.calculate`. -/
def ScheduleB.calculate (rd : Snapshot) : ScheduleBRes :=
  let total_interest := (rd.interest_1099s.map (·.box_1_interest)).sum
  let total_ordinary_dividends := (rd.dividend_1099s.map (·.box_1a_ordinary_dividends)).sum
  let total_qualified_dividends := (rd.dividend_1099s.map (·.box_1b_qualified_dividends)).sum
  let total_tax_exempt := (rd.interest_1099s.map (·.box_8_tax_exempt_interest)).sum
  let fed_withheld := (rd.interest_1099s.map (·.box_4_fed_tax_withheld)).sum
    + (rd.dividend_1099s.map (·.box_4_fed_tax_withheld)).sum
  { line_1 := round2 total_interest
    line_4 := round2 total_interest
    line_5 := round2 total_ordinary_dividends
    line_6 := round2 total_ordinary_dividends
    qualified_dividends := round2 total_qualified_dividends
    tax_exempt_interest := round2 total_tax_exempt
    fed_tax_withheld := round2 fed_withheld }

/-! ### Form 8949 -/

/-- Lines stored by `Form8949.calculate`. -/
structure Form8949Res where
  st_proceeds : ℚ
  st_basis : ℚ
  st_adjustment : ℚ
  st_gain_loss : ℚ
  lt_proceeds : ℚ
  lt_basis : ℚ
  lt_adjustment : ℚ
  lt_gain_loss : ℚ
  transaction_count : ℚ
deriving DecidableEq

/-- Running totals of one Form 8949 bucket (short-term or long-term). -/
structure BucketTotals where
  proceeds : ℚ
  basis : ℚ
  adjustment : ℚ
  gain_loss : ℚ
deriving DecidableEq

/-- The holding-period test of the Form 8949 loop:
`sale.get("holding_period", "short_term") == "short_term"`. -/
def Form8949.isShort (sale : CapitalAssetSale) : Bool :=
  sale.holding_period.getD "short_term" == "short_term"

/-- Per-sale gain/loss: `proceeds - basis + adjustment`. -/
def Form8949.gainLoss (sale : CapitalAssetSale) : ℚ :=
  sale.proceeds - sale.cost_basis + sale.adjustment_amount

/-- The `for sale in sales` loop of `Form8949.calculate`, accumulating
both buckets. -/
def Form8949.go : List CapitalAssetSale → BucketTotals → BucketTotals →
    BucketTotals × BucketTotals
  | [], st, lt => (st, lt)
  | sale :: rest, st, lt =>
    let gain_loss := Form8949.gainLoss sale
    if Form8949.isShort sale then
      Form8949.go rest
        ⟨st.proceeds + sale.proceeds, st.basis + sale.cost_basis,
         st.adjustment + sale.adjustment_amount, st.gain_loss + gain_loss⟩ lt
    else
      Form8949.go rest st
        ⟨lt.proceeds + sale.proceeds, lt.basis + sale.cost_basis,
         lt.adjustment + sale.adjustment_amount, lt.gain_loss + gain_loss⟩

/-- `Form8949.calculate`. -/
def Form8949.calculate (rd : Snapshot) : Form8949Res :=
  let sales := rd.capital_asset_sales
  let buckets := Form8949.go sales ⟨0, 0, 0, 0⟩ ⟨0, 0, 0, 0⟩
  { st_proceeds := round2 buckets.1.proceeds
    st_basis := round2 buckets.1.basis
    st_adjustment := round2 buckets.1.adjustment
    st_gain_loss := round2 buckets.1.gain_loss
    lt_proceeds := round2 buckets.2.proceeds
    lt_basis := round2 buckets.2.basis
    lt_adjustment := round2 buckets.2.adjustment
    lt_gain_loss := round2 buckets.2.gain_loss
    transaction_count := round2 (sales.length : ℚ) }

/-! ### Schedule D -/

/-- Lines stored by `ScheduleD.calculate`.  `carryforward_loss` is only
assigned in the loss branch; readers (`get_line`) default the missing
key to 0, which the gain branch of the model stores directly. -/
structure ScheduleDRes where
  line_7 : ℚ
  line_13 : ℚ
  line_15 : ℚ
  line_16 : ℚ
  line_21 : ℚ
  has_gain : ℚ
  carryforward_loss : ℚ
  net_lt_gain : ℚ
deriving DecidableEq

/-- `ScheduleD.calculate`.  `f8949` is `other_forms.get("form_8949")`. -/
def ScheduleD.calculate (rd : Snapshot) (f8949 : Option Form8949Res) : ScheduleDRes :=
  let st_gain_loss := match f8949 with | some f => f.st_gain_loss | none => 0
  let line_7 := round2 st_gain_loss
  let lt_gain_loss := match f8949 with | some f => f.lt_gain_loss | none => 0
  let cap_gain_distributions := (rd.dividend_1099s.map (·.box_2a_total_capital_gain)).sum
  let line_13 := round2 cap_gain_distributions
  let total_lt := lt_gain_loss + cap_gain_distributions
  let line_15 := round2 total_lt
  let net_st := line_7
  let net_lt := line_15
  let net_capital := net_st + net_lt
  let line_16 := round2 net_capital
  -- The gain/loss branches set disjoint line values; they are recorded
  -- field-wise (`allowed_loss = max(net_capital, -CAPITAL_LOSS_LIMIT)`).
  { line_7 := line_7, line_13 := line_13, line_15 := line_15, line_16 := line_16
    line_21 := if 0 < net_capital then round2 net_capital
      else round2 (max net_capital (-CAPITAL_LOSS_LIMIT))
    has_gain := if 0 < net_capital then round2 1 else round2 0
    carryforward_loss := if 0 < net_capital then 0
      else round2 (net_capital - max net_capital (-CAPITAL_LOSS_LIMIT))
    net_lt_gain := round2 (max 0 net_lt) }

/-! ### Schedule A -/

/-- Lines stored by `ScheduleA.calculate`. -/
structure ScheduleARes where
  line_1 : ℚ
  line_2 : ℚ
  line_3 : ℚ
  line_4 : ℚ
  line_5a : ℚ
  line_5b : ℚ
  line_5c : ℚ
  line_5d : ℚ
  line_5e : ℚ
  line_7 : ℚ
  line_8a : ℚ
  line_8b : ℚ
  line_8c : ℚ
  line_9 : ℚ
  line_10 : ℚ
  line_11 : ℚ
  line_12 : ℚ
  line_13 : ℚ
  line_14 : ℚ
  line_15 : ℚ
  line_16 : ℚ
  line_17 : ℚ
deriving DecidableEq

/-- `ScheduleA._calculate_salt_cap`. -/
def ScheduleA.calculate_salt_cap (agi : ℚ) (fs : FilingStatus) : ℚ :=
  let threshold := SALT_PHASE_DOWN_THRESHOLD fs
  if agi ≤ threshold then SALT_CAP_BASE
  else
    let excess := agi - threshold
    let reduction := excess * SALT_PHASE_DOWN_RATE
    max SALT_CAP_FLOOR (SALT_CAP_BASE - reduction)

/-- `ScheduleA.calculate`.  With no itemized record only `line_17 = 0`
is stored; the other keys are absent and read back as 0. -/
def ScheduleA.calculate (rd : Snapshot) : ScheduleARes :=
  match rd.itemized_deduction with
  | none =>
    { line_1 := 0, line_2 := 0, line_3 := 0, line_4 := 0
      line_5a := 0, line_5b := 0, line_5c := 0, line_5d := 0, line_5e := 0
      line_7 := 0, line_8a := 0, line_8b := 0, line_8c := 0, line_9 := 0
      line_10 := 0, line_11 := 0, line_12 := 0, line_13 := 0, line_14 := 0
      line_15 := 0, line_16 := 0, line_17 := round2 0 }
  | some itemized =>
    let agi := rd.agi.getD 0
    let filing_status := rd.filing_status
    let medical := itemized.medical_expenses
    let medical_floor := agi * MEDICAL_EXPENSE_AGI_FLOOR
    let medical_deduction := max 0 (medical - medical_floor)
    let total_salt := itemized.state_income_tax_paid + itemized.real_estate_tax_paid
      + itemized.personal_property_tax
    let salt_cap := ScheduleA.calculate_salt_cap agi filing_status
    let salt_deduction := min total_salt salt_cap
    let total_interest := itemized.mortgage_interest_1098 + itemized.mortgage_interest_not_1098
      + itemized.mortgage_points + itemized.investment_interest
    let total_charitable := itemized.cash_charitable + itemized.noncash_charitable
      + itemized.carryover_charitable
    let casualty := itemized.casualty_loss
    let other := itemized.other_deductions
    let total := medical_deduction + salt_deduction + total_interest + total_charitable
      + casualty + other
    { line_1 := round2 medical, line_2 := round2 agi, line_3 := round2 medical_floor
      line_4 := round2 medical_deduction
      line_5a := round2 itemized.state_income_tax_paid
      line_5b := round2 itemized.real_estate_tax_paid
      line_5c := round2 itemized.personal_property_tax
      line_5d := round2 total_salt, line_5e := round2 salt_deduction
      line_7 := round2 salt_deduction
      line_8a := round2 itemized.mortgage_interest_1098
      line_8b := round2 itemized.mortgage_interest_not_1098
      line_8c := round2 itemized.mortgage_points
      line_9 := round2 itemized.investment_interest
      line_10 := round2 total_interest
      line_11 := round2 itemized.cash_charitable
      line_12 := round2 itemized.noncash_charitable
      line_13 := round2 itemized.carryover_charitable
      line_14 := round2 total_charitable
      line_15 := round2 casualty, line_16 := round2 other
      line_17 := round2 total }

/-! ### Form 1040 -/

/-- Lines stored by `Form1040.calculate` (`deduction_method` is stored
as a raw string, bypassing `set_line`'s rounding). -/
structure Form1040Res where
  line_1a : ℚ
  line_1z : ℚ
  line_2a : ℚ
  line_2b : ℚ
  line_3a : ℚ
  line_3b : ℚ
  line_4a : ℚ
  line_4b : ℚ
  line_5a : ℚ
  line_5b : ℚ
  line_6a : ℚ
  line_6b : ℚ
  line_7 : ℚ
  line_8 : ℚ
  line_9 : ℚ
  line_10 : ℚ
  line_11 : ℚ
  line_12 : ℚ
  standard_deduction : ℚ
  itemized_deduction : ℚ
  deduction_method : String
  line_13 : ℚ
  line_14 : ℚ
  line_15 : ℚ
  line_16 : ℚ
  line_17 : ℚ
  line_18 : ℚ
  line_19 : ℚ
  line_20 : ℚ
  line_21 : ℚ
  line_22 : ℚ
  line_23 : ℚ
  line_24 : ℚ
  line_25a : ℚ
  line_25d : ℚ
  line_26 : ℚ
  line_27 : ℚ
  line_28 : ℚ
  line_29 : ℚ
  line_33 : ℚ
  line_34 : ℚ
  line_35a : ℚ
  line_37 : ℚ
  effective_rate : ℚ
  marginal_rate : ℚ
deriving DecidableEq

/-- `Form1040._calculate_ordinary_tax` (the same bracket walk as
`_calculate_bracket_tax` over the ordinary table). -/
def Form1040.calculate_ordinary_tax (taxable_income : ℚ) (fs : FilingStatus) : ℚ :=
  round2 (bracketTaxGo taxable_income (ORDINARY_TAX_BRACKETS fs) 0 0)

/-- Loop of `Form1040._get_marginal_rate`: first bracket whose upper
limit (with `none` as infinity) is at least the taxable income. -/
def marginalGo (taxable_income : ℚ) : List TaxBracket → Option ℚ
  | [] => none
  | b :: rest =>
    match b.upper_limit with
    | none => some b.rate
    | some u => if taxable_income ≤ u then some b.rate else marginalGo taxable_income rest

/-- `brackets[-1].rate`, the fallback after the loop. -/
def lastRate : List TaxBracket → ℚ
  | [] => 0
  | [b] => b.rate
  | _ :: rest => lastRate rest

/-- `Form1040._get_marginal_rate`. -/
def Form1040.get_marginal_rate (taxable_income : ℚ) (fs : FilingStatus) : ℚ :=
  (marginalGo taxable_income (ORDINARY_TAX_BRACKETS fs)).getD
    (lastRate (ORDINARY_TAX_BRACKETS fs))

/-- `Form1040._calculate_taxable_ss`: flat 85% simplification. -/
def Form1040.calculate_taxable_ss (total_benefits : ℚ) : ℚ :=
  if total_benefits ≤ 0 then 0 else round2 (total_benefits * (85/100))

/-- `Form1040.calculate`.  The option arguments are
`other_forms.get("schedule_b")` etc.  `schedule_8812` and `schedule_3`
are never registered by `TaxEngine`, so their `other_forms.get` lookups
yield `None` and the credit hookups stay 0.  Returns the form result
together with the updated snapshot (`return_data["agi"] = agi`). -/
def Form1040.calculate (rd : Snapshot) (schedule_b : Option ScheduleBRes)
    (schedule_d : Option ScheduleDRes) (schedule_a : Option ScheduleARes) :
    Form1040Res × Snapshot :=
  let filing_status := rd.filing_status
  let w2s := rd.w2_incomes
  let total_wages := (w2s.map (·.box_1_wages)).sum
  let tax_exempt_interest := match schedule_b with | some sb => sb.tax_exempt_interest | none => 0
  let taxable_interest := match schedule_b with | some sb => sb.line_4 | none => 0
  let qualified_dividends := match schedule_b with | some sb => sb.qualified_dividends | none => 0
  let ordinary_dividends := match schedule_b with | some sb => sb.line_6 | none => 0
  let retirement_1099rs := rd.retirement_1099rs
  let ira_total := (retirement_1099rs.map (·.box_1_gross_distribution)).sum
  let ira_taxable := (retirement_1099rs.map (·.box_2a_taxable_amount)).sum
  let ssa_1099s := rd.ssa_1099s
  let ss_total := (ssa_1099s.map (·.box_5_net_benefits)).sum
  let ss_taxable := Form1040.calculate_taxable_ss ss_total
  let capital_gain_loss := match schedule_d with | some sd => sd.line_21 | none => 0
  let gov_1099gs := rd.government_1099gs
  let unemployment := (gov_1099gs.map (·.box_1_unemployment)).sum
  let total_income := total_wages + taxable_interest + ordinary_dividends + ira_taxable
    + ss_taxable + capital_gain_loss + unemployment
  let adjustments : ℚ := 0
  let agi := total_income - adjustments
  let rd' := { rd with agi := some agi }
  let standard := STANDARD_DEDUCTION filing_status
  let itemized := match schedule_a with | some sa => sa.line_17 | none => 0
  let use_itemized := standard < itemized ∧ rd.itemized_deduction.isSome = true
  let deduction := if use_itemized then itemized else standard
  let deduction_method := if use_itemized then "itemized" else "standard"
  let total_deductions := deduction
  let taxable_income := max 0 (agi - total_deductions)
  let net_lt_gain := match schedule_d with | some sd => sd.net_lt_gain | none => 0
  let use_qdcg := 0 < qualified_dividends ∨ 0 < net_lt_gain
  let tax :=
    if use_qdcg then
      calculate_tax_with_qdcg taxable_income qualified_dividends net_lt_gain filing_status
    else Form1040.calculate_ordinary_tax taxable_income filing_status
  let ctc : ℚ := 0
  let schedule_3_credits : ℚ := 0
  let total_credits := ctc + schedule_3_credits
  let tax_after_credits := max 0 (tax - total_credits)
  let total_tax := tax_after_credits
  let w2_withheld := (w2s.map (·.box_2_fed_tax_withheld)).sum
  let interest_div_withheld := match schedule_b with | some sb => sb.fed_tax_withheld | none => 0
  let retirement_withheld := (retirement_1099rs.map (·.box_4_fed_tax_withheld)).sum
  let gov_withheld := (gov_1099gs.map (·.box_4_fed_tax_withheld)).sum
  let ss_withheld := (ssa_1099s.map (·.box_6_voluntary_withholding)).sum
  let total_withheld := w2_withheld + interest_div_withheld + retirement_withheld
    + gov_withheld + ss_withheld
  let actc : ℚ := 0
  let refundable_aotc : ℚ := 0
  let total_payments := total_withheld + actc + refundable_aotc
  ({ line_1a := round2 total_wages, line_1z := round2 total_wages
     line_2a := round2 tax_exempt_interest, line_2b := round2 taxable_interest
     line_3a := round2 qualified_dividends, line_3b := round2 ordinary_dividends
     line_4a := round2 ira_total, line_4b := round2 ira_taxable
     line_5a := round2 0, line_5b := round2 0
     line_6a := round2 ss_total, line_6b := round2 ss_taxable
     line_7 := round2 capital_gain_loss, line_8 := round2 unemployment
     line_9 := round2 total_income, line_10 := round2 adjustments
     line_11 := round2 agi
     line_12 := round2 deduction
     standard_deduction := round2 standard
     itemized_deduction := round2 itemized
     deduction_method := deduction_method
     line_13 := round2 0, line_14 := round2 total_deductions
     line_15 := round2 taxable_income
     line_16 := round2 tax, line_17 := round2 0, line_18 := round2 tax
     line_19 := round2 ctc, line_20 := round2 total_credits
     line_21 := round2 tax_after_credits, line_22 := round2 0
     line_23 := round2 total_tax, line_24 := round2 total_tax
     line_25a := round2 w2_withheld, line_25d := round2 total_withheld
     line_26 := round2 0, line_27 := round2 0
     line_28 := round2 actc, line_29 := round2 refundable_aotc
     line_33 := round2 total_payments
     line_34 := if total_tax < total_payments then round2 (total_payments - total_tax)
       else round2 0
     line_35a := if total_tax < total_payments then round2 (total_payments - total_tax)
       else round2 0
     line_37 := if total_tax < total_payments then round2 0
       else round2 (total_tax - total_payments)
     effective_rate := if 0 < agi then round2 (total_tax / agi) else round2 0
     marginal_rate := round2 (Form1040.get_marginal_rate taxable_income filing_status) },
   rd')

/-! ### TaxEngine -/

/-- All per-form results of one `TaxEngine.calculate` call, in the
solver's execution order (schedule_b, form_8949, schedule_d,
schedule_a, form_1040 — see `engine_topological_order` below), plus the
snapshot after Form 1040's AGI write-back. -/
structure EngineRun where
  sb : ScheduleBRes
  f8949 : Form8949Res
  sd : ScheduleDRes
  sa : ScheduleARes
  f1040 : Form1040Res
  snapshotAfter : Snapshot

/-- The solver-ordered execution of the five registered calculators. -/
def TaxEngine.run (rd : Snapshot) : EngineRun :=
  let sb := ScheduleB.calculate rd
  let f8949 := Form8949.calculate rd
  let sd := ScheduleD.calculate rd (some f8949)
  let sa := ScheduleA.calculate rd
  let res := Form1040.calculate rd (some sb) (some sd) (some sa)
  ⟨sb, f8949, sd, sa, res.1, res.2⟩

/-- The summary record returned by `TaxEngine.calculate` (the per-form
line maps are available through `TaxEngine.run`). -/
structure CalculationResult where
  total_income : ℚ
  agi : ℚ
  taxable_income : ℚ
  total_tax : ℚ
  total_credits : ℚ
  total_payments : ℚ
  refund_amount : ℚ
  amount_owed : ℚ
  effective_tax_rate : ℚ
  marginal_tax_rate : ℚ
  standard_deduction_amount : ℚ
  itemized_deduction_amount : ℚ
  deduction_method : String
  required_forms : List String
deriving DecidableEq

/-- `TaxEngine.calculate`: runs the solver over the five registered
forms and assembles the result summary; also returns the snapshot as
left behind by the run. -/
def TaxEngine.calculate (rd : Snapshot) : CalculationResult × Snapshot :=
  let r := TaxEngine.run rd
  let required_forms :=
    ["form_1040"]
    ++ (if 1500 < r.sb.line_4 ∨ 1500 < r.sb.line_6 then ["schedule_b"] else [])
    ++ (if 0 < r.f8949.transaction_count then ["form_8949", "schedule_d"] else [])
    ++ (if r.f1040.deduction_method = "itemized" then ["schedule_a"] else [])
  ({ total_income := r.f1040.line_9
     agi := r.f1040.line_11
     taxable_income := r.f1040.line_15
     total_tax := r.f1040.line_24
     total_credits := r.f1040.line_20
     total_payments := r.f1040.line_33
     refund_amount := r.f1040.line_35a
     amount_owed := r.f1040.line_37
     effective_tax_rate := r.f1040.effective_rate
     marginal_tax_rate := r.f1040.marginal_rate
     standard_deduction_amount := r.f1040.standard_deduction
     itemized_deduction_amount := r.f1040.itemized_deduction
     deduction_method := r.f1040.deduction_method
     required_forms := required_forms },
   r.snapshotAfter)

/-! ### TaxFormSolver

The solver is modelled generically: a registry is the list of
`(form_id, dependencies)` pairs in registration order (Python dict keys
are unique and iterate in insertion order), and a calculator is any
function of the form id and the map of already-computed results.
Recursion depth in `_topological_sort`'s `visit` is bounded by the
number of registered forms, so the recursion is modelled with fuel
`reg.length + 1`, which is proved sufficient below. -/

/-- One registered calculator: its stable id and declared dependency ids. -/
structure FormSpec where
  form_id : String
  dependencies : List String
deriving DecidableEq

/-- The registered form ids, in registration order. -/
def regIds (reg : List FormSpec) : List String := reg.map (·.form_id)

/-- Declared dependencies of `fid` restricted to registered ids — the
`if dep_id in self.registry` filter inside `visit`'s loop (an
unregistered `fid` has no registry entry, hence no dependency loop). -/
def regDeps (reg : List FormSpec) (fid : String) : List String :=
  match reg.find? (fun s => s.form_id == fid) with
  | some s => s.dependencies.filter (fun d => (regIds reg).contains d)
  | none => []

/-- The `for dep_id in form.dependencies` loop of `visit`: run `visitF`
on each dependency in turn, propagating the first raised error. -/
def visitList
    (visitF : String → List String → List String × List String →
      Except String (List String × List String)) :
    List String → List String → List String × List String →
      Except String (List String × List String)
  | [], _, st => .ok st
  | d :: rest, ancestors, st =>
    match visitF d ancestors st with
    | .error e => .error e
    | .ok st' => visitList visitF rest ancestors st'

/-- `visit(form_id, ancestors)` of `_topological_sort`; the state is the
`(visited, order)` pair.  `ancestors` is the explicit currently-visiting
set (a list, since Python's set is only queried for membership).  The
recursion depth is bounded by the number of registered forms, modelled
with structural fuel (proved sufficient below). -/
def visit (reg : List FormSpec) : Nat → String → List String →
    List String × List String → Except String (List String × List String)
  | 0, _, _, _ => .error "recursion limit exceeded"
  | fuel + 1, fid, ancestors, st =>
    if fid ∈ ancestors then .error ("Circular dependency detected involving " ++ fid)
    else if fid ∈ st.1 then .ok st
    else
      match visitList (visit reg fuel) (regDeps reg fid) (fid :: ancestors) st with
      | .error e => .error e
      | .ok st' => .ok (fid :: st'.1, st'.2 ++ [fid])

/-- The `for form_id in self.registry: visit(form_id, set())` loop. -/
def topoSortGo (reg : List FormSpec) : List String → List String × List String →
    Except String (List String × List String)
  | [], st => .ok st
  | fid :: rest, st =>
    match visit reg (reg.length + 1) fid [] st with
    | .error e => .error e
    | .ok st' => topoSortGo reg rest st'

/-- `TaxFormSolver._topological_sort`. -/
def topological_sort (reg : List FormSpec) : Except String (List String) :=
  match topoSortGo reg (regIds reg) ([], []) with
  | .error e => .error e
  | .ok st => .ok st.2

/-- The `for form_id in order` loop of `TaxFormSolver.solve`: each
calculator receives the full `computed` map accumulated so far, and its
result is appended under its form id. -/
def runOrder {α : Type} (calcF : String → List (String × α) → α) :
    List String → List (String × α) → List (String × α)
  | [], computed => computed
  | fid :: rest, computed => runOrder calcF rest (computed ++ [(fid, calcF fid computed)])

/-- `TaxFormSolver.solve`. -/
def TaxFormSolver.solve {α : Type} (reg : List FormSpec)
    (calcF : String → List (String × α) → α) : Except String (List (String × α)) :=
  match topological_sort reg with
  | .error e => .error e
  | .ok order => .ok (runOrder calcF order [])

/-- `a` declares (registered) `b` among its dependencies. -/
def DependsOn (reg : List FormSpec) (a b : String) : Prop := b ∈ regDeps reg a

instance (reg : List FormSpec) (a b : String) : Decidable (DependsOn reg a b) := by
  unfold DependsOn
  infer_instance

/-- The declared-dependency graph restricted to registered forms has a
cycle. -/
def Cyclic (reg : List FormSpec) : Prop :=
  ∃ f, Relation.TransGen (DependsOn reg) f f

/-- The registry built by `TaxEngine.calculate`, in registration order,
with each form's declared `dependencies` list. -/
def engineSpecs : List FormSpec :=
  [⟨"schedule_b", []⟩, ⟨"form_8949", []⟩, ⟨"schedule_d", ["form_8949"]⟩,
   ⟨"schedule_a", []⟩, ⟨"form_1040", ["schedule_b", "schedule_d", "schedule_a"]⟩]

/-! ### Views, cent-valued snapshots, and concrete snapshots -/

/-- Every monetary field of the snapshot is a whole number of cents (as
is the case for caller-built snapshots, which come from currency
amounts). -/
def Snapshot.AllCents (rd : Snapshot) : Prop :=
  (∀ w ∈ rd.w2_incomes, IsCents w.box_1_wages ∧ IsCents w.box_2_fed_tax_withheld) ∧
  (∀ i ∈ rd.interest_1099s, IsCents i.box_1_interest ∧ IsCents i.box_4_fed_tax_withheld ∧
    IsCents i.box_8_tax_exempt_interest) ∧
  (∀ d ∈ rd.dividend_1099s, IsCents d.box_1a_ordinary_dividends ∧
    IsCents d.box_1b_qualified_dividends ∧ IsCents d.box_2a_total_capital_gain ∧
    IsCents d.box_4_fed_tax_withheld) ∧
  (∀ r ∈ rd.retirement_1099rs, IsCents r.box_1_gross_distribution ∧
    IsCents r.box_2a_taxable_amount ∧ IsCents r.box_4_fed_tax_withheld) ∧
  (∀ g ∈ rd.government_1099gs, IsCents g.box_1_unemployment ∧
    IsCents g.box_4_fed_tax_withheld) ∧
  (∀ s ∈ rd.ssa_1099s, IsCents s.box_5_net_benefits ∧ IsCents s.box_6_voluntary_withholding)

/-- The Schedule D result computed during `TaxEngine.run` (Form 8949 is
registered, so `other_forms.get("form_8949")` is present). -/
def scheduleDOf (rd : Snapshot) : ScheduleDRes :=
  ScheduleD.calculate rd (some (Form8949.calculate rd))

/-- The local variable `net_capital` of `ScheduleD.calculate` during
`TaxEngine.run`: the sum of the already-rounded lines 7 and 15. -/
def sdNetOf (rd : Snapshot) : ℚ := (scheduleDOf rd).line_7 + (scheduleDOf rd).line_15

/-- The local variable `total_income` of `Form1040.calculate` as it
evaluates inside `TaxEngine.run` (all three schedule lookups present).
Agreement with the embedding is definitional (`rfl` in the proofs). -/
def totalIncomeOf (rd : Snapshot) : ℚ :=
  (rd.w2_incomes.map (·.box_1_wages)).sum
    + (ScheduleB.calculate rd).line_4
    + (ScheduleB.calculate rd).line_6
    + (rd.retirement_1099rs.map (·.box_2a_taxable_amount)).sum
    + Form1040.calculate_taxable_ss ((rd.ssa_1099s.map (·.box_5_net_benefits)).sum)
    + (scheduleDOf rd).line_21
    + (rd.government_1099gs.map (·.box_1_unemployment)).sum

/-- The local variable `agi` of `Form1040.calculate` (adjustments are
stubbed at 0). -/
def agiOf (rd : Snapshot) : ℚ := totalIncomeOf rd - 0

/-- The local variable `deduction` of `Form1040.calculate`: the itemized
total only if it strictly exceeds the standard deduction AND an
itemized-deduction record is present. -/
def deductionOf (rd : Snapshot) : ℚ :=
  if STANDARD_DEDUCTION rd.filing_status < (ScheduleA.calculate rd).line_17
      ∧ rd.itemized_deduction.isSome = true
  then (ScheduleA.calculate rd).line_17
  else STANDARD_DEDUCTION rd.filing_status

/-- The local variable `taxable_income` of `Form1040.calculate`. -/
def taxableIncomeOf (rd : Snapshot) : ℚ := max 0 (agiOf rd - deductionOf rd)

/-- The local variable `tax` of `Form1040.calculate` (line 16 before
rounding): worksheet when preferential income is present, ordinary
brackets otherwise. -/
def taxOf (rd : Snapshot) : ℚ :=
  if 0 < (ScheduleB.calculate rd).qualified_dividends ∨ 0 < (scheduleDOf rd).net_lt_gain then
    calculate_tax_with_qdcg (taxableIncomeOf rd) (ScheduleB.calculate rd).qualified_dividends
      (scheduleDOf rd).net_lt_gain rd.filing_status
  else Form1040.calculate_ordinary_tax (taxableIncomeOf rd) rd.filing_status

/-- The local variable `total_tax` of `Form1040.calculate`: tax less the
(stubbed, zero) credits, floored at 0. -/
def totalTaxOf (rd : Snapshot) : ℚ := max 0 (taxOf rd - (0 + 0))

/-- The local variable `total_payments` of `Form1040.calculate`: all
per-source withholding plus the (stubbed, zero) refundable credits. -/
def totalPaymentsOf (rd : Snapshot) : ℚ :=
  (rd.w2_incomes.map (·.box_2_fed_tax_withheld)).sum
    + (ScheduleB.calculate rd).fed_tax_withheld
    + (rd.retirement_1099rs.map (·.box_4_fed_tax_withheld)).sum
    + (rd.government_1099gs.map (·.box_4_fed_tax_withheld)).sum
    + (rd.ssa_1099s.map (·.box_6_voluntary_withholding)).sum
    + 0 + 0

/-- A snapshot with no income and no withholding at all. -/
def emptySnapshot : Snapshot :=
  ⟨.single, [], [], [], [], [], [], [], none, none⟩

/-- Scenario A of the spec: single filer, one W-2 with wages 75000 and
withholding 9500, nothing else. -/
def scenarioA : Snapshot :=
  ⟨.single, [⟨75000, 9500⟩], [], [], [], [], [], [], none, none⟩

/-- A snapshot with a single short-term capital sale at a 5000 loss. -/
def lossSnapshot : Snapshot :=
  ⟨.single, [], [], [], [], [], [], [⟨1000, 6000, 0, some "short_term"⟩], none, none⟩

/-- Single filer with wages 100000 and an itemized record with 10000 of
medical expenses (all other itemized fields 0): exposes the AGI ordering
between Form 1040 and Schedule A. -/
def c8Snapshot : Snapshot :=
  ⟨.single, [⟨100000, 0⟩], [], [], [], [], [], [],
   some ⟨10000, 0, 0, 0, 0, 0, 0, 0, 0, 0, 0, 0, 0⟩, none⟩

/-- A two-form registry whose declared dependencies form a cycle. -/
def cycSpecs : List FormSpec := [⟨"a", ["b"]⟩, ⟨"b", ["a"]⟩]

/-- Invariant of the traversal state `(visited, order)`: `visited` and
`order` hold the same ids, `order` has no duplicates, contains only
registered ids, and lists every member strictly after all of its
registered declared dependencies. -/
def SolverInv (reg : List FormSpec) (st : List String × List String) : Prop :=
  (∀ x, x ∈ st.1 ↔ x ∈ st.2) ∧ st.2.Nodup ∧ (∀ x ∈ st.2, x ∈ regIds reg) ∧
    ∀ f ∈ st.2, ∀ d ∈ regDeps reg f, [d, f].Sublist st.2

/-! ### Rounding lemmas -/

theorem round2_intDiv (n : ℤ) : round2 ((n : ℚ) / 100) = (n : ℚ) / 100 := by
  unfold round2
  rw [div_mul_cancel₀ _ (by norm_num : (100 : ℚ) ≠ 0), round_intCast]

theorem round2_eq_self {x : ℚ} (h : IsCents x) : round2 x = x := by
  obtain ⟨n, rfl⟩ := h
  exact round2_intDiv n

theorem isCents_round2 (x : ℚ) : IsCents (round2 x) := ⟨round (x * 100), rfl⟩

theorem isCents_zero : IsCents 0 := ⟨0, by norm_num⟩

theorem isCents_of_mul_eq {x : ℚ} (n : ℤ) (h : x * 100 = (n : ℚ)) : IsCents x :=
  ⟨n, by rw [← h]; exact (mul_div_cancel_right₀ x (by norm_num)).symm⟩

theorem isCents_add {x y : ℚ} (hx : IsCents x) (hy : IsCents y) : IsCents (x + y) := by
  obtain ⟨m, rfl⟩ := hx
  obtain ⟨n, rfl⟩ := hy
  exact ⟨m + n, by push_cast; ring⟩

theorem isCents_neg {x : ℚ} (hx : IsCents x) : IsCents (-x) := by
  obtain ⟨m, rfl⟩ := hx
  exact ⟨-m, by push_cast; ring⟩

theorem isCents_sub {x y : ℚ} (hx : IsCents x) (hy : IsCents y) : IsCents (x - y) := by
  rw [sub_eq_add_neg]
  exact isCents_add hx (isCents_neg hy)

theorem isCents_min {x y : ℚ} (hx : IsCents x) (hy : IsCents y) : IsCents (min x y) := by
  rcases min_choice x y with h | h <;> rw [h] <;> assumption

theorem isCents_max {x y : ℚ} (hx : IsCents x) (hy : IsCents y) : IsCents (max x y) := by
  rcases max_choice x y with h | h <;> rw [h] <;> assumption

theorem isCents_listSum {β : Type} (f : β → ℚ) :
    ∀ l : List β, (∀ b ∈ l, IsCents (f b)) → IsCents ((l.map f).sum) := by
  intro l
  induction l with
  | nil => intro _; simpa using isCents_zero
  | cons a t ih =>
    intro h
    simp only [List.map_cons, List.sum_cons]
    exact isCents_add (h a (by simp)) (ih fun b hb => h b (by simp [hb]))

theorem round2_mono {x y : ℚ} (h : x ≤ y) : round2 x ≤ round2 y := by
  unfold round2
  rw [div_le_div_iff_of_pos_right (by norm_num : (0 : ℚ) < 100)]
  rw [Int.cast_le, round_eq, round_eq]
  exact Int.floor_le_floor (by linarith [mul_le_mul_of_nonneg_right h (by norm_num : (0:ℚ) ≤ 100)])

theorem round2_zero : round2 0 = 0 := round2_eq_self isCents_zero

theorem round2_nonneg {x : ℚ} (h : 0 ≤ x) : 0 ≤ round2 x := by
  have := round2_mono h
  rwa [round2_zero] at this

/-! ### Definitional views of the engine run -/

theorem total_payments_view (rd : Snapshot) :
    (TaxEngine.calculate rd).1.total_payments = round2 (totalPaymentsOf rd) := rfl

theorem total_tax_view (rd : Snapshot) :
    (TaxEngine.calculate rd).1.total_tax = round2 (totalTaxOf rd) := rfl

theorem refund_view (rd : Snapshot) :
    (TaxEngine.calculate rd).1.refund_amount =
      if totalTaxOf rd < totalPaymentsOf rd then round2 (totalPaymentsOf rd - totalTaxOf rd)
      else round2 0 := rfl

theorem owed_view (rd : Snapshot) :
    (TaxEngine.calculate rd).1.amount_owed =
      if totalTaxOf rd < totalPaymentsOf rd then round2 0
      else round2 (totalTaxOf rd - totalPaymentsOf rd) := rfl

theorem bracket_tax_zero (fs : FilingStatus) : calculate_bracket_tax 0 fs .ordinary = 0 := by
  cases fs <;>
    simp [calculate_bracket_tax, ORDINARY_TAX_BRACKETS, bracketTaxGo, round2_zero]

theorem isCents_calculate_bracket_tax (i : ℚ) (fs : FilingStatus) (bt : BracketType) :
    IsCents (calculate_bracket_tax i fs bt) := isCents_round2 _

theorem isCents_stacked (oi pi : ℚ) (fs : FilingStatus) :
    IsCents (calculate_stacked_ltcg_tax oi pi fs) := isCents_round2 _

theorem isCents_qdcg (ti qd ltcg : ℚ) (fs : FilingStatus) :
    IsCents (calculate_tax_with_qdcg ti qd ltcg fs) := by
  unfold calculate_tax_with_qdcg
  split
  · exact isCents_zero
  · exact isCents_min
      (isCents_add (isCents_calculate_bracket_tax _ _ _) (isCents_stacked _ _ _))
      (isCents_calculate_bracket_tax _ _ _)

theorem isCents_taxOf (rd : Snapshot) : IsCents (taxOf rd) := by
  unfold taxOf
  split
  · exact isCents_qdcg _ _ _ _
  · exact isCents_round2 _

theorem isCents_totalTaxOf (rd : Snapshot) : IsCents (totalTaxOf rd) :=
  isCents_max isCents_zero
    (isCents_sub (isCents_taxOf rd) (isCents_add isCents_zero isCents_zero))

theorem isCents_totalPaymentsOf {rd : Snapshot} (h : rd.AllCents) :
    IsCents (totalPaymentsOf rd) := by
  obtain ⟨hw, hi, hd, hr, hg, hs⟩ := h
  refine isCents_add (isCents_add (isCents_add (isCents_add (isCents_add (isCents_add
    (isCents_listSum _ _ fun w hw' => (hw w hw').2)
    (isCents_round2 _))
    (isCents_listSum _ _ fun r hr' => (hr r hr').2.2))
    (isCents_listSum _ _ fun g hg' => (hg g hg').2))
    (isCents_listSum _ _ fun s hs' => (hs s hs').2))
    isCents_zero) isCents_zero

/-- Arithmetic core of the refund/owed branch of `Form1040.calculate`,
for cent-valued payments and tax. -/
theorem refund_owed_core (P T : ℚ) (hP : IsCents P) (hT : IsCents T) :
    0 ≤ (if T < P then round2 (P - T) else round2 0) ∧
    0 ≤ (if T < P then round2 0 else round2 (T - P)) ∧
    ((if T < P then round2 (P - T) else round2 0) = 0 ∨
      (if T < P then round2 0 else round2 (T - P)) = 0) ∧
    (if T < P then round2 (P - T) else round2 0) +
        (if T < P then round2 0 else round2 (T - P)) = |round2 P - round2 T| ∧
    (round2 P = round2 T →
      (if T < P then round2 (P - T) else round2 0) = 0 ∧
      (if T < P then round2 0 else round2 (T - P)) = 0) := by
  rw [round2_eq_self (isCents_sub hP hT), round2_eq_self (isCents_sub hT hP),
    round2_eq_self hP, round2_eq_self hT, round2_zero]
  by_cases h : T < P
  · simp only [if_pos h]
    refine ⟨by linarith, by simp, by simp, ?_, fun hPT => ⟨by linarith, by simp⟩⟩
    rw [abs_of_pos (by linarith : (0:ℚ) < P - T)]
    ring
  · simp only [if_neg h]
    push_neg at h
    refine ⟨by simp, by linarith, by simp, ?_, fun hPT => ⟨by simp, by linarith⟩⟩
    rw [abs_of_nonpos (by linarith : P - T ≤ 0)]
    ring

/-- Every monetary field of Scenario A's snapshot is whole cents. -/
theorem scenarioA_allCents : scenarioA.AllCents := by
  refine ⟨?_, ?_, ?_, ?_, ?_, ?_⟩
  · intro w hw
    simp only [scenarioA, List.mem_singleton] at hw
    subst hw
    exact ⟨isCents_of_mul_eq 7500000 (by norm_num), isCents_of_mul_eq 950000 (by norm_num)⟩
  all_goals intro x hx; simp [scenarioA] at hx

/-- C1 (amended): for every snapshot whose monetary inputs are whole
cents, at most one of refund_amount and amount_owed is non-zero, their
sum equals the absolute difference between total_payments and total_tax
(so whichever of them is non-zero equals that absolute difference), and
both are zero exactly when total_payments equals total_tax. -/
theorem refund_owed_mutual_exclusion (rd : Snapshot) (h : rd.AllCents) :
    0 ≤ (TaxEngine.calculate rd).1.refund_amount ∧
    0 ≤ (TaxEngine.calculate rd).1.amount_owed ∧
    ((TaxEngine.calculate rd).1.refund_amount = 0 ∨
      (TaxEngine.calculate rd).1.amount_owed = 0) ∧
    (TaxEngine.calculate rd).1.refund_amount + (TaxEngine.calculate rd).1.amount_owed =
      |(TaxEngine.calculate rd).1.total_payments - (TaxEngine.calculate rd).1.total_tax| ∧
    ((TaxEngine.calculate rd).1.total_payments = (TaxEngine.calculate rd).1.total_tax →
      (TaxEngine.calculate rd).1.refund_amount = 0 ∧
      (TaxEngine.calculate rd).1.amount_owed = 0) := by
  rw [refund_view, owed_view, total_payments_view, total_tax_view]
  exact refund_owed_core _ _ (isCents_totalPaymentsOf h) (isCents_totalTaxOf rd)

/-- C1 as stated is false on the code: for a snapshot with no income and
no withholding, `total_payments = total_tax` and the else-branch of
`Form1040.calculate` stores 0 for BOTH `line_35a` (refund) and `line_37`
(owed), so "exactly one of refund_amount and amount_owed is non-zero"
fails. -/
theorem refund_owed_mutual_exclusion_cex :
    (TaxEngine.calculate emptySnapshot).1.refund_amount = 0 ∧
    (TaxEngine.calculate emptySnapshot).1.amount_owed = 0 ∧
    (TaxEngine.calculate emptySnapshot).1.total_payments =
      (TaxEngine.calculate emptySnapshot).1.total_tax := by
  rw [refund_view, owed_view, total_payments_view, total_tax_view]
  norm_num [totalTaxOf, totalPaymentsOf, taxOf, taxableIncomeOf, agiOf, deductionOf,
    totalIncomeOf, scheduleDOf, ScheduleB.calculate, Form8949.calculate, Form8949.go,
    ScheduleD.calculate, ScheduleA.calculate, Form1040.calculate_taxable_ss,
    Form1040.calculate_ordinary_tax, calculate_tax_with_qdcg, bracketTaxGo,
    ORDINARY_TAX_BRACKETS, STANDARD_DEDUCTION, CAPITAL_LOSS_LIMIT, emptySnapshot,
    round2, round_eq]

/-- Witness for C1 (amended) at Scenario A's snapshot. -/
theorem refund_owed_mutual_exclusion_witness :
    scenarioA.AllCents ∧
    (0 ≤ (TaxEngine.calculate scenarioA).1.refund_amount ∧
    0 ≤ (TaxEngine.calculate scenarioA).1.amount_owed ∧
    ((TaxEngine.calculate scenarioA).1.refund_amount = 0 ∨
      (TaxEngine.calculate scenarioA).1.amount_owed = 0) ∧
    (TaxEngine.calculate scenarioA).1.refund_amount +
        (TaxEngine.calculate scenarioA).1.amount_owed =
      |(TaxEngine.calculate scenarioA).1.total_payments -
        (TaxEngine.calculate scenarioA).1.total_tax| ∧
    ((TaxEngine.calculate scenarioA).1.total_payments =
        (TaxEngine.calculate scenarioA).1.total_tax →
      (TaxEngine.calculate scenarioA).1.refund_amount = 0 ∧
      (TaxEngine.calculate scenarioA).1.amount_owed = 0)) :=
  ⟨scenarioA_allCents, refund_owed_mutual_exclusion scenarioA scenarioA_allCents⟩

/-- C3: for every non-negative taxable income, non-negative qualified
dividends, non-negative net long-term gain and either filing status, the
Preferential-Rate Worksheet's output is at most the tax from applying
the ordinary bracket table to the entire taxable income; and for
non-positive taxable income it returns 0. -/
theorem qdcg_bounded_by_ordinary (ti qd ltcg : ℚ) (fs : FilingStatus)
    (hqd : 0 ≤ qd) (hltcg : 0 ≤ ltcg) :
    (0 ≤ ti → calculate_tax_with_qdcg ti qd ltcg fs ≤ calculate_bracket_tax ti fs .ordinary) ∧
    (ti ≤ 0 → calculate_tax_with_qdcg ti qd ltcg fs = 0) := by
  constructor
  · intro hti
    unfold calculate_tax_with_qdcg
    split
    · next h =>
      have hti0 : ti = 0 := le_antisymm h hti
      subst hti0
      exact (bracket_tax_zero fs).ge
    · exact min_le_right _ _
  · intro h
    simp [calculate_tax_with_qdcg, h]

/-- Witness for C3 at taxable income 100000, qualified dividends 5000,
net long-term gain 2000, filing status single. -/
theorem qdcg_bounded_by_ordinary_witness :
    (0 : ℚ) ≤ 5000 ∧ (0 : ℚ) ≤ 2000 ∧
    ((0 ≤ (100000 : ℚ) →
      calculate_tax_with_qdcg 100000 5000 2000 .single ≤
        calculate_bracket_tax 100000 .single .ordinary) ∧
    ((100000 : ℚ) ≤ 0 → calculate_tax_with_qdcg 100000 5000 2000 .single = 0)) :=
  ⟨by norm_num, by norm_num,
    qdcg_bounded_by_ordinary 100000 5000 2000 .single (by norm_num) (by norm_num)⟩

/-- C2: Scenario A — single filer, one W-2 with 75000 wages and 9500
withheld, nothing else: taxable income 59250 after the 15750 standard
deduction, total tax 7949.00, refund 1551.00. -/
theorem scenario_a_result :
    (TaxEngine.calculate scenarioA).1.taxable_income = 59250 ∧
    (TaxEngine.calculate scenarioA).1.standard_deduction_amount = 15750 ∧
    (TaxEngine.calculate scenarioA).1.deduction_method = "standard" ∧
    (TaxEngine.calculate scenarioA).1.total_tax = 7949 ∧
    (TaxEngine.calculate scenarioA).1.refund_amount = 1551 := by
  norm_num [TaxEngine.calculate, TaxEngine.run, Form1040.calculate, ScheduleB.calculate,
    Form8949.calculate, Form8949.go, ScheduleD.calculate, ScheduleA.calculate,
    Form1040.calculate_taxable_ss, Form1040.calculate_ordinary_tax, calculate_tax_with_qdcg,
    bracketTaxGo, ORDINARY_TAX_BRACKETS, STANDARD_DEDUCTION, CAPITAL_LOSS_LIMIT,
    scenarioA, round2, round_eq]

/-- Arithmetic core of Schedule D's loss branch: with the combined net
being cent-valued, the stored lines equal the unrounded
`max`/difference. -/
theorem loss_clamp_core (net : ℚ) (hnet : IsCents net) :
    round2 (max net (-CAPITAL_LOSS_LIMIT)) = max (round2 net) (-CAPITAL_LOSS_LIMIT) ∧
    round2 (net - max net (-CAPITAL_LOSS_LIMIT)) =
      round2 net - round2 (max net (-CAPITAL_LOSS_LIMIT)) := by
  have hcap : IsCents (-CAPITAL_LOSS_LIMIT) :=
    isCents_neg (isCents_of_mul_eq 300000 (by norm_num [CAPITAL_LOSS_LIMIT]))
  have hmax : IsCents (max net (-CAPITAL_LOSS_LIMIT)) := isCents_max hnet hcap
  rw [round2_eq_self hnet, round2_eq_self hmax, round2_eq_self (isCents_sub hnet hmax)]
  exact ⟨rfl, rfl⟩

/-- C4: whenever the combined net capital result (Schedule D line 16,
net short-term plus net long-term including capital-gain distributions)
is a loss, line 21 is `max(combined, -3000)` and the carryforward is the
excess `combined - line_21`. -/
theorem schedule_d_loss_clamp (rd : Snapshot) (h : (TaxEngine.run rd).sd.line_16 < 0) :
    (TaxEngine.run rd).sd.line_21 =
      max (TaxEngine.run rd).sd.line_16 (-CAPITAL_LOSS_LIMIT) ∧
    (TaxEngine.run rd).sd.carryforward_loss =
      (TaxEngine.run rd).sd.line_16 - (TaxEngine.run rd).sd.line_21 := by
  have h16 : (TaxEngine.run rd).sd.line_16 = round2 (sdNetOf rd) := rfl
  have h21 : (TaxEngine.run rd).sd.line_21 =
      if 0 < sdNetOf rd then round2 (sdNetOf rd)
      else round2 (max (sdNetOf rd) (-CAPITAL_LOSS_LIMIT)) := rfl
  have hcf : (TaxEngine.run rd).sd.carryforward_loss =
      if 0 < sdNetOf rd then 0
      else round2 (sdNetOf rd - max (sdNetOf rd) (-CAPITAL_LOSS_LIMIT)) := rfl
  have hnet : IsCents (sdNetOf rd) := isCents_add (isCents_round2 _) (isCents_round2 _)
  rcases lt_or_le 0 (sdNetOf rd) with hpos | hle
  · rw [h16] at h
    exact absurd h (not_lt.mpr (round2_nonneg (le_of_lt hpos)))
  · rw [h21, hcf, h16, if_neg (not_lt.mpr hle), if_neg (not_lt.mpr hle)]
    exact loss_clamp_core (sdNetOf rd) hnet

/-- Witness for C4 at a snapshot with a single short-term sale sold at a
5000 loss (line 16 = -5000, line 21 = -3000, carryforward = -2000). -/
theorem schedule_d_loss_clamp_witness :
    (TaxEngine.run lossSnapshot).sd.line_16 < 0 ∧
    ((TaxEngine.run lossSnapshot).sd.line_21 =
      max (TaxEngine.run lossSnapshot).sd.line_16 (-CAPITAL_LOSS_LIMIT) ∧
    (TaxEngine.run lossSnapshot).sd.carryforward_loss =
      (TaxEngine.run lossSnapshot).sd.line_16 - (TaxEngine.run lossSnapshot).sd.line_21) :=
  ⟨by norm_num [TaxEngine.run, ScheduleD.calculate, Form8949.calculate, Form8949.go,
      Form8949.isShort, Form8949.gainLoss, lossSnapshot, round2, round_eq],
   schedule_d_loss_clamp lossSnapshot
     (by norm_num [TaxEngine.run, ScheduleD.calculate, Form8949.calculate, Form8949.go,
       Form8949.isShort, Form8949.gainLoss, lossSnapshot, round2, round_eq])⟩

theorem isCents_standard_deduction (fs : FilingStatus) : IsCents (STANDARD_DEDUCTION fs) := by
  cases fs
  · exact isCents_of_mul_eq 1575000 (by norm_num [STANDARD_DEDUCTION])
  · exact isCents_of_mul_eq 3150000 (by norm_num [STANDARD_DEDUCTION])

theorem isCents_scheduleA_line17 (rd : Snapshot) :
    IsCents ((ScheduleA.calculate rd).line_17) := by
  obtain ⟨fs, w2s, is, ds, rs, gs, ss, sales, item, agi⟩ := rd
  cases item <;> exact isCents_round2 _

/-- C5: the aggregator itemizes (method "itemized", line 12 equal to the
itemized total) exactly when an itemized-deduction record is present AND
the itemized total strictly exceeds the filing-status standard
deduction; in every other case it uses the standard deduction. -/
theorem deduction_method_selection (rd : Snapshot) :
    ((TaxEngine.run rd).f1040.deduction_method = "itemized" ↔
      rd.itemized_deduction.isSome = true ∧
      STANDARD_DEDUCTION rd.filing_status < (TaxEngine.run rd).sa.line_17) ∧
    ((TaxEngine.run rd).f1040.deduction_method = "itemized" →
      (TaxEngine.run rd).f1040.line_12 = (TaxEngine.run rd).sa.line_17) ∧
    ((TaxEngine.run rd).f1040.deduction_method ≠ "itemized" →
      (TaxEngine.run rd).f1040.deduction_method = "standard" ∧
      (TaxEngine.run rd).f1040.line_12 = STANDARD_DEDUCTION rd.filing_status) := by
  have hsa : (TaxEngine.run rd).sa = ScheduleA.calculate rd := rfl
  have hm : (TaxEngine.run rd).f1040.deduction_method =
      if STANDARD_DEDUCTION rd.filing_status < (ScheduleA.calculate rd).line_17
          ∧ rd.itemized_deduction.isSome = true
      then "itemized" else "standard" := rfl
  have h12 : (TaxEngine.run rd).f1040.line_12 =
      round2 (if STANDARD_DEDUCTION rd.filing_status < (ScheduleA.calculate rd).line_17
          ∧ rd.itemized_deduction.isSome = true
        then (ScheduleA.calculate rd).line_17
        else STANDARD_DEDUCTION rd.filing_status) := rfl
  rw [hsa, hm, h12]
  by_cases hc : STANDARD_DEDUCTION rd.filing_status < (ScheduleA.calculate rd).line_17
      ∧ rd.itemized_deduction.isSome = true
  · rw [if_pos hc, if_pos hc]
    exact ⟨⟨fun _ => ⟨hc.2, hc.1⟩, fun _ => rfl⟩,
      fun _ => round2_eq_self (isCents_scheduleA_line17 rd),
      fun hne => absurd rfl hne⟩
  · rw [if_neg hc, if_neg hc]
    refine ⟨⟨fun hx => absurd hx (by simp), fun hand => absurd ⟨hand.2, hand.1⟩ hc⟩,
      fun hx => absurd hx (by simp),
      fun _ => ⟨rfl, round2_eq_self (isCents_standard_deduction rd.filing_status)⟩⟩

/-- C9: one calculation run leaves every snapshot field unchanged except
that it stores the derived AGI (total income minus the stubbed-zero
adjustments) under the `agi` key; no calculator performs any other
snapshot mutation.  The stored (unrounded) value rounds to the reported
AGI line 11. -/
theorem engine_snapshot_frame (rd : Snapshot) :
    (TaxEngine.calculate rd).2 = { rd with agi := some (agiOf rd) } ∧
    round2 (agiOf rd) = (TaxEngine.run rd).f1040.line_11 :=
  ⟨rfl, rfl⟩

/-- Bucket accumulation of the Form 8949 loop: each bucket's gain/loss
total is the sum of per-sale gains over the sales the holding-period
test routes to it. -/
theorem form8949_go_gain (sales : List CapitalAssetSale) :
    ∀ st lt : BucketTotals,
      (Form8949.go sales st lt).1.gain_loss =
        st.gain_loss + ((sales.filter (fun s => Form8949.isShort s)).map Form8949.gainLoss).sum ∧
      (Form8949.go sales st lt).2.gain_loss =
        lt.gain_loss + ((sales.filter (fun s => !Form8949.isShort s)).map Form8949.gainLoss).sum := by
  induction sales with
  | nil => intro st lt; simp [Form8949.go]
  | cons sale rest ih =>
    intro st lt
    by_cases hs : Form8949.isShort sale = true
    · simp only [Form8949.go, hs, if_true]
      have h := ih ⟨st.proceeds + sale.proceeds, st.basis + sale.cost_basis,
        st.adjustment + sale.adjustment_amount, st.gain_loss + Form8949.gainLoss sale⟩ lt
      rw [h.1, h.2]
      constructor
      · simp [List.filter_cons, hs, add_assoc]
      · simp [List.filter_cons, hs]
    · have hs' : Form8949.isShort sale = false := by
        revert hs
        cases Form8949.isShort sale <;> simp
      simp only [Form8949.go, hs', Bool.false_eq_true, if_false]
      have h := ih st ⟨lt.proceeds + sale.proceeds, lt.basis + sale.cost_basis,
        lt.adjustment + sale.adjustment_amount, lt.gain_loss + Form8949.gainLoss sale⟩
      rw [h.1, h.2]
      constructor
      · simp [List.filter_cons, hs']
      · simp [List.filter_cons, hs', add_assoc]

/-- C10: the Form 8949 categorizer places a sale with an absent
holding-period tag in the short-term bucket, places a sale with any tag
other than exactly "short_term" in the long-term bucket, computes each
sale's gain/loss as `proceeds - cost_basis + adjustment_amount`, and the
stored bucket totals are the (once-rounded) sums over the corresponding
sales. -/
theorem form8949_categorization (rd : Snapshot) :
    (TaxEngine.run rd).f8949.st_gain_loss =
      round2 (((rd.capital_asset_sales.filter (fun s => Form8949.isShort s)).map
        Form8949.gainLoss).sum) ∧
    (TaxEngine.run rd).f8949.lt_gain_loss =
      round2 (((rd.capital_asset_sales.filter (fun s => !Form8949.isShort s)).map
        Form8949.gainLoss).sum) ∧
    (∀ s : CapitalAssetSale, s.holding_period = none → Form8949.isShort s = true) ∧
    (∀ s : CapitalAssetSale, ∀ t, s.holding_period = some t → t ≠ "short_term" →
      Form8949.isShort s = false) ∧
    (∀ s : CapitalAssetSale,
      Form8949.gainLoss s = s.proceeds - s.cost_basis + s.adjustment_amount) := by
  have hst : (TaxEngine.run rd).f8949.st_gain_loss =
      round2 ((Form8949.go rd.capital_asset_sales ⟨0, 0, 0, 0⟩ ⟨0, 0, 0, 0⟩).1.gain_loss) := rfl
  have hlt : (TaxEngine.run rd).f8949.lt_gain_loss =
      round2 ((Form8949.go rd.capital_asset_sales ⟨0, 0, 0, 0⟩ ⟨0, 0, 0, 0⟩).2.gain_loss) := rfl
  have h := form8949_go_gain rd.capital_asset_sales ⟨0, 0, 0, 0⟩ ⟨0, 0, 0, 0⟩
  refine ⟨?_, ?_, ?_, ?_, fun s => rfl⟩
  · rw [hst, h.1, zero_add]
  · rw [hlt, h.2, zero_add]
  · intro s hnone
    simp [Form8949.isShort, hnone]
  · intro s t hsome hne
    simp [Form8949.isShort, hsome, hne]

/-- C8 fails on the code: the solver's topological order runs
schedule_a BEFORE form_1040 (form_1040 declares schedule_a as a
dependency), so within one run Schedule A reads the absent `agi` key as
0 — here a 100000-AGI filer gets a medical floor of 0 (line 3) and a
full 10000 medical deduction (line 4) instead of the
2500 = 10000 - 7.5% * 100000 the documented AGI coupling intends — and
Form 1040's write-back (`agi = some 100000`) lands only after Schedule A
has already run. -/
theorem schedule_a_runs_before_agi_writeback :
    topological_sort engineSpecs =
      .ok ["schedule_b", "form_8949", "schedule_d", "schedule_a", "form_1040"] ∧
    c8Snapshot.agi = none ∧
    (TaxEngine.run c8Snapshot).sa.line_2 = 0 ∧
    (TaxEngine.run c8Snapshot).sa.line_3 = 0 ∧
    (TaxEngine.run c8Snapshot).sa.line_4 = 10000 ∧
    (TaxEngine.run c8Snapshot).f1040.line_11 = 100000 ∧
    (TaxEngine.run c8Snapshot).snapshotAfter.agi = some 100000 := by
  refine ⟨rfl, rfl, ?_, ?_, ?_, ?_, ?_⟩ <;>
    norm_num [TaxEngine.run, Form1040.calculate, ScheduleA.calculate,
      ScheduleA.calculate_salt_cap, ScheduleB.calculate, Form8949.calculate, Form8949.go,
      ScheduleD.calculate, Form1040.calculate_taxable_ss, c8Snapshot,
      MEDICAL_EXPENSE_AGI_FLOOR, SALT_PHASE_DOWN_THRESHOLD, SALT_CAP_BASE, SALT_CAP_FLOOR,
      SALT_PHASE_DOWN_RATE, STANDARD_DEDUCTION, CAPITAL_LOSS_LIMIT, round2, round_eq]

/-! ### Solver soundness -/

theorem regDeps_subset_ids (reg : List FormSpec) (fid : String) :
    ∀ d ∈ regDeps reg fid, d ∈ regIds reg := by
  intro d hd
  unfold regDeps at hd
  cases hf : reg.find? (fun s => s.form_id == fid) with
  | none => rw [hf] at hd; cases hd
  | some s =>
    rw [hf] at hd
    have := List.of_mem_filter hd
    simpa using this

theorem mem_regIds_of_regDeps_ne (reg : List FormSpec) (fid : String)
    (h : regDeps reg fid ≠ []) : fid ∈ regIds reg := by
  unfold regDeps at h
  cases hf : reg.find? (fun s => s.form_id == fid) with
  | none => rw [hf] at h; exact absurd rfl h
  | some s =>
    have hmem : s ∈ reg := List.mem_of_find?_eq_some hf
    have hp := List.find?_some hf
    have : s.form_id = fid := by simpa using hp
    subst this
    exact List.mem_map_of_mem (·.form_id) hmem

theorem visitList_sound (reg : List FormSpec) (fuel : Nat)
    (hv : ∀ fid anc st st', visit reg fuel fid anc st = .ok st' → fid ∈ regIds reg →
      SolverInv reg st → SolverInv reg st' ∧ (∀ x ∈ st.1, x ∈ st'.1) ∧
      (∃ ext, st'.2 = st.2 ++ ext) ∧ fid ∈ st'.1 ∧ (∀ x ∈ st'.1, x ∈ st.1 ∨ x ∉ anc)) :
    ∀ ds anc st st', visitList (visit reg fuel) ds anc st = .ok st' →
      (∀ d ∈ ds, d ∈ regIds reg) → SolverInv reg st →
      SolverInv reg st' ∧ (∀ x ∈ st.1, x ∈ st'.1) ∧ (∃ ext, st'.2 = st.2 ++ ext) ∧
      (∀ d ∈ ds, d ∈ st'.1) ∧ (∀ x ∈ st'.1, x ∈ st.1 ∨ x ∉ anc) := by
  intro ds
  induction ds with
  | nil =>
    intro anc st st' h _ hinv
    simp only [visitList, Except.ok.injEq] at h
    subst h
    exact ⟨hinv, fun x hx => hx, ⟨[], by simp⟩, by simp, fun x hx => Or.inl hx⟩
  | cons d rest ih =>
    intro anc st st' h hds hinv
    cases hv1 : visit reg fuel d anc st with
    | error e => simp [visitList, hv1] at h
    | ok st1 =>
      simp only [visitList, hv1] at h
      obtain ⟨hinv1, hsub1, ⟨e1, hext1⟩, hdin, hnew1⟩ :=
        hv d anc st st1 hv1 (hds d (by simp)) hinv
      obtain ⟨hinv2, hsub2, ⟨e2, hext2⟩, hall2, hnew2⟩ :=
        ih anc st1 st' h (fun x hx => hds x (by simp [hx])) hinv1
      refine ⟨hinv2, fun x hx => hsub2 x (hsub1 x hx),
        ⟨e1 ++ e2, by rw [hext2, hext1, List.append_assoc]⟩, ?_, ?_⟩
      · intro x hx
        rcases List.mem_cons.mp hx with rfl | hx1
        · exact hsub2 x hdin
        · exact hall2 x hx1
      · intro x hx
        rcases hnew2 x hx with h1 | h1
        · exact (hnew1 x h1).elim Or.inl Or.inr
        · exact Or.inr h1

theorem visit_sound (reg : List FormSpec) : ∀ (fuel : Nat) fid anc st st',
    visit reg fuel fid anc st = .ok st' → fid ∈ regIds reg → SolverInv reg st →
    SolverInv reg st' ∧ (∀ x ∈ st.1, x ∈ st'.1) ∧ (∃ ext, st'.2 = st.2 ++ ext) ∧
    fid ∈ st'.1 ∧ (∀ x ∈ st'.1, x ∈ st.1 ∨ x ∉ anc) := by
  intro fuel
  induction fuel with
  | zero => intro fid anc st st' h; simp [visit] at h
  | succ n ih =>
    intro fid anc st st' h hfid hinv
    rw [visit] at h
    by_cases h1 : fid ∈ anc
    · simp [h1] at h
    · rw [if_neg h1] at h
      by_cases h2 : fid ∈ st.1
      · rw [if_pos h2] at h
        injection h with h
        subst h
        exact ⟨hinv, fun x hx => hx, ⟨[], by simp⟩, h2, fun x hx => Or.inl hx⟩
      · rw [if_neg h2] at h
        cases hm : visitList (visit reg n) (regDeps reg fid) (fid :: anc) st with
        | error e => rw [hm] at h; cases h
        | ok stm =>
          rw [hm] at h
          injection h with h
          subst h
          obtain ⟨hinvm, hsubm, ⟨ext, hextm⟩, hallm, hnewm⟩ :=
            visitList_sound reg n ih (regDeps reg fid) (fid :: anc) st stm hm
              (regDeps_subset_ids reg fid) hinv
          have hfid_not : fid ∉ stm.1 := fun hin =>
            (hnewm fid hin).elim (fun hin1 => h2 hin1) (fun hnotin => hnotin (by simp))
          have hfid_not2 : fid ∉ stm.2 := fun hin => hfid_not ((hinvm.1 fid).mpr hin)
          refine ⟨⟨?_, ?_, ?_, ?_⟩, ?_, ?_, ?_, ?_⟩
          · intro x
            simp only [List.mem_cons, List.mem_append, List.mem_singleton,
              List.not_mem_nil, or_false]
            rw [hinvm.1 x]
            exact or_comm
          · simp only [List.nodup_append, List.nodup_cons, List.nodup_nil]
            exact ⟨hinvm.2.1, ⟨by simp, trivial⟩, by
              intro a ha
              simp only [List.mem_singleton]
              intro heq
              subst heq
              exact hfid_not2 ha⟩
          · intro x hx
            rcases List.mem_append.mp hx with hx1 | hx2
            · exact hinvm.2.2.1 x hx1
            · simp only [List.mem_singleton] at hx2
              subst hx2
              exact hfid
          · intro f hf d hd
            rcases List.mem_append.mp hf with hf1 | hf2
            · exact (hinvm.2.2.2 f hf1 d hd).trans (List.sublist_append_left _ _)
            · simp only [List.mem_singleton] at hf2
              subst hf2
              have hdm2 : d ∈ stm.2 := (hinvm.1 d).mp (hallm d hd)
              exact (List.singleton_sublist.mpr hdm2).append (List.Sublist.refl [f])
          · exact fun x hx => List.mem_cons_of_mem _ (hsubm x hx)
          · exact ⟨ext ++ [fid], by rw [hextm, List.append_assoc]⟩
          · exact List.mem_cons_self _ _
          · intro x hx
            rcases List.mem_cons.mp hx with rfl | hx1
            · exact Or.inr h1
            · exact (hnewm x hx1).elim Or.inl
                (fun hn => Or.inr fun hc => hn (List.mem_cons_of_mem _ hc))

theorem topoSortGo_sound (reg : List FormSpec) :
    ∀ ids st st', topoSortGo reg ids st = .ok st' → (∀ i ∈ ids, i ∈ regIds reg) →
      SolverInv reg st →
      SolverInv reg st' ∧ (∀ x ∈ st.1, x ∈ st'.1) ∧ ∀ i ∈ ids, i ∈ st'.1 := by
  intro ids
  induction ids with
  | nil =>
    intro st st' h _ hinv
    simp only [topoSortGo, Except.ok.injEq] at h
    subst h
    exact ⟨hinv, fun x hx => hx, by simp⟩
  | cons i rest ih =>
    intro st st' h hids hinv
    cases hv : visit reg (reg.length + 1) i [] st with
    | error e => simp [topoSortGo, hv] at h
    | ok st1 =>
      simp only [topoSortGo, hv] at h
      obtain ⟨hinv1, hsub1, _, hin1, _⟩ :=
        visit_sound reg (reg.length + 1) i [] st st1 hv (hids i (by simp)) hinv
      obtain ⟨hinv2, hsub2, hall2⟩ := ih st1 st' h (fun j hj => hids j (by simp [hj])) hinv1
      refine ⟨hinv2, fun x hx => hsub2 x (hsub1 x hx), ?_⟩
      intro j hj
      rcases List.mem_cons.mp hj with rfl | hj1
      · exact hsub2 j hin1
      · exact hall2 j hj1

theorem topological_sort_sound (reg : List FormSpec) (order : List String)
    (h : topological_sort reg = .ok order) :
    order.Nodup ∧ (∀ x, x ∈ order ↔ x ∈ regIds reg) ∧
      ∀ f d, d ∈ regDeps reg f → [d, f].Sublist order := by
  unfold topological_sort at h
  cases hg : topoSortGo reg (regIds reg) ([], []) with
  | error e => rw [hg] at h; cases h
  | ok st =>
    rw [hg] at h
    injection h with h
    subst h
    have hinv0 : SolverInv reg ([], []) := ⟨by simp, List.nodup_nil, by simp, by simp⟩
    obtain ⟨hinv, _, hall⟩ :=
      topoSortGo_sound reg (regIds reg) ([], []) st hg (fun i hi => hi) hinv0
    refine ⟨hinv.2.1,
      fun x => ⟨fun hx => hinv.2.2.1 x hx, fun hx => (hinv.1 x).mp (hall x hx)⟩, ?_⟩
    intro f d hd
    have hf : f ∈ regIds reg :=
      mem_regIds_of_regDeps_ne reg f (fun he => by rw [he] at hd; cases hd)
    exact hinv.2.2.2 f ((hinv.1 f).mp (hall f hf)) d hd

/-- Transitivity of "occurs strictly before" on a duplicate-free list,
phrased through two-element sublists. -/
theorem sublist_pair_trans {a b c : String} :
    ∀ {ord : List String}, ord.Nodup → [a, b].Sublist ord → [b, c].Sublist ord →
      [a, c].Sublist ord := by
  intro ord
  induction ord with
  | nil => intro _ h1 _; cases h1
  | cons x t ih =>
    intro hnd h1 h2
    cases h1 with
    | cons₂ _ h1' =>
      cases h2 with
      | cons₂ _ h2' =>
        exact absurd (List.singleton_sublist.mp h1') (List.nodup_cons.mp hnd).1
      | cons _ h2' =>
        exact List.Sublist.cons₂ _ (List.singleton_sublist.mpr (h2'.subset (by simp)))
    | cons _ h1' =>
      cases h2 with
      | cons₂ _ h2' =>
        exact absurd (h1'.subset (by simp)) (List.nodup_cons.mp hnd).1
      | cons _ h2' =>
        exact List.Sublist.cons _ (ih (List.nodup_cons.mp hnd).2 h1' h2')

/-- Along the final order, a transitive dependency chain always points
strictly backwards. -/
theorem transGen_before (reg : List FormSpec) (order : List String)
    (hnd : order.Nodup)
    (hdeps : ∀ f d, d ∈ regDeps reg f → [d, f].Sublist order) :
    ∀ p q, Relation.TransGen (DependsOn reg) p q → [q, p].Sublist order := by
  intro p q h
  induction h with
  | single hd => exact hdeps _ _ hd
  | tail _ hbc ih => exact sublist_pair_trans hnd (hdeps _ _ hbc) ih

/-- If `_topological_sort` succeeds, the registered dependency graph is
acyclic. -/
theorem ok_implies_acyclic (reg : List FormSpec) (order : List String)
    (h : topological_sort reg = .ok order) : ¬ Cyclic reg := by
  obtain ⟨hnd, _, hdeps⟩ := topological_sort_sound reg order h
  rintro ⟨f, hf⟩
  have hsl := transGen_before reg order hnd hdeps f f hf
  have hdup : ([f, f] : List String).Nodup := List.Nodup.sublist hsl hnd
  simp at hdup

/-! ### Solver completeness (acyclic registries solve successfully) -/

/-- The `ancestors` list is always a dependency chain rooted at the
current node; revisiting any ancestor closes a cycle. -/
theorem chain_cycle (reg : List FormSpec) :
    ∀ (anc : List String) (fid : String),
      List.Chain (fun x y => x ∈ regDeps reg y) fid anc →
      ∀ b ∈ anc, Relation.TransGen (DependsOn reg) b fid := by
  intro anc
  induction anc with
  | nil => intro fid _ b hb; cases hb
  | cons a rest ih =>
    intro fid hch b hb
    rw [List.chain_cons] at hch
    rcases List.mem_cons.mp hb with rfl | hb1
    · exact Relation.TransGen.single hch.1
    · exact Relation.TransGen.tail (ih a hch.2 b hb1) hch.1

theorem filter_length_mono (p q : String → Bool) (himp : ∀ x, p x = true → q x = true) :
    ∀ l : List String, (l.filter p).length ≤ (l.filter q).length := by
  intro l
  induction l with
  | nil => simp
  | cons a t ih =>
    by_cases hp : p a = true
    · simp only [List.filter_cons, hp, himp a hp, if_true]
      simpa using ih
    · have hp' : p a = false := by revert hp; cases p a <;> simp
      simp only [List.filter_cons, hp', Bool.false_eq_true, if_false]
      by_cases hq : q a = true
      · simp only [hq, if_true, List.length_cons]
        omega
      · have hq' : q a = false := by revert hq; cases q a <;> simp
        simp only [hq', Bool.false_eq_true, if_false]
        exact ih

/-- Marking the current node as an ancestor strictly shrinks the set of
registered ids not yet on the ancestor path. -/
theorem filter_not_mem_length (anc : List String) (fid : String) (hno : fid ∉ anc) :
    ∀ l : List String, fid ∈ l →
      (l.filter (fun x => decide (x ∉ fid :: anc))).length <
        (l.filter (fun x => decide (x ∉ anc))).length := by
  intro l
  induction l with
  | nil => intro h; cases h
  | cons a t ih =>
    intro hmem
    have hmono := filter_length_mono (fun x => decide (x ∉ fid :: anc))
      (fun x => decide (x ∉ anc))
      (fun x hx => by
        simp only [decide_eq_true_eq] at hx ⊢
        intro hxa
        exact hx (List.mem_cons_of_mem _ hxa)) t
    by_cases ha : a = fid
    · subst ha
      have h1 : decide (a ∉ a :: anc) = false := by simp
      have h2 : decide (a ∉ anc) = true := by simp [hno]
      simp only [List.filter_cons, h1, h2, Bool.false_eq_true, if_false, if_true,
        List.length_cons]
      omega
    · by_cases h2 : a ∈ anc
      · have e1 : decide (a ∉ fid :: anc) = false := by simp [h2]
        have e2 : decide (a ∉ anc) = false := by simp [h2]
        simp only [List.filter_cons, e1, e2, Bool.false_eq_true, if_false]
        refine ih ?_
        rcases List.mem_cons.mp hmem with h3 | h3
        · exact absurd h3.symm ha
        · exact h3
      · have e1 : decide (a ∉ fid :: anc) = true := by
          simp [List.mem_cons, ha, h2]
        have e2 : decide (a ∉ anc) = true := by simp [h2]
        simp only [List.filter_cons, e1, e2, if_true, List.length_cons]
        have := ih (by
          rcases List.mem_cons.mp hmem with h3 | h3
          · exact absurd h3.symm ha
          · exact h3)
        omega

theorem visitList_complete (reg : List FormSpec) (fuel : Nat)
    (hv : ∀ fid anc st, fid ∈ regIds reg →
      List.Chain (fun x y => x ∈ regDeps reg y) fid anc →
      SolverInv reg st →
      ((regIds reg).filter (fun x => decide (x ∉ anc))).length < fuel →
      ∃ st', visit reg fuel fid anc st = .ok st') :
    ∀ ds anc st, (∀ d ∈ ds, d ∈ regIds reg ∧
        List.Chain (fun x y => x ∈ regDeps reg y) d anc) →
      SolverInv reg st →
      ((regIds reg).filter (fun x => decide (x ∉ anc))).length < fuel →
      ∃ st', visitList (visit reg fuel) ds anc st = .ok st' := by
  intro ds
  induction ds with
  | nil => intro anc st _ _ _; exact ⟨st, rfl⟩
  | cons d rest ih =>
    intro anc st hds hinv hcount
    obtain ⟨st1, h1⟩ := hv d anc st (hds d (by simp)).1 (hds d (by simp)).2 hinv hcount
    obtain ⟨hinv1, _, _, _, _⟩ :=
      visit_sound reg fuel d anc st st1 h1 (hds d (by simp)).1 hinv
    obtain ⟨st', h'⟩ := ih anc st1 (fun x hx => hds x (by simp [hx])) hinv1 hcount
    exact ⟨st', by simp only [visitList, h1]; exact h'⟩

theorem visit_complete (reg : List FormSpec) (hacyc : ¬ Cyclic reg) :
    ∀ (fuel : Nat) fid anc st, fid ∈ regIds reg →
      List.Chain (fun x y => x ∈ regDeps reg y) fid anc →
      SolverInv reg st →
      ((regIds reg).filter (fun x => decide (x ∉ anc))).length < fuel →
      ∃ st', visit reg fuel fid anc st = .ok st' := by
  intro fuel
  induction fuel with
  | zero => intro fid anc st _ _ _ hcount; omega
  | succ n ih =>
    intro fid anc st hfid hch hinv hcount
    by_cases h1 : fid ∈ anc
    · exact absurd ⟨fid, chain_cycle reg anc fid hch fid h1⟩ hacyc
    · by_cases h2 : fid ∈ st.1
      · exact ⟨st, by rw [visit, if_neg h1, if_pos h2]⟩
      · have hcount' :
            ((regIds reg).filter (fun x => decide (x ∉ fid :: anc))).length < n := by
          have hlt := filter_not_mem_length anc fid h1 (regIds reg) hfid
          omega
        have hdeps : ∀ d ∈ regDeps reg fid, d ∈ regIds reg ∧
            List.Chain (fun x y => x ∈ regDeps reg y) d (fid :: anc) := fun d hd =>
          ⟨regDeps_subset_ids reg fid d hd, List.Chain.cons hd hch⟩
        obtain ⟨st1, hst1⟩ :=
          visitList_complete reg n ih (regDeps reg fid) (fid :: anc) st hdeps hinv
            hcount'
        exact ⟨(fid :: st1.1, st1.2 ++ [fid]), by rw [visit, if_neg h1, if_neg h2, hst1]⟩

theorem topoSortGo_complete (reg : List FormSpec) (hacyc : ¬ Cyclic reg) :
    ∀ ids st, (∀ i ∈ ids, i ∈ regIds reg) → SolverInv reg st →
      ∃ st', topoSortGo reg ids st = .ok st' := by
  intro ids
  induction ids with
  | nil => intro st _ _; exact ⟨st, rfl⟩
  | cons i rest ih =>
    intro st hids hinv
    have hcount :
        ((regIds reg).filter (fun x => decide (x ∉ ([] : List String)))).length <
          reg.length + 1 := by
      have h1 := List.length_filter_le (fun x => decide (x ∉ ([] : List String))) (regIds reg)
      have h2 : (regIds reg).length = reg.length := by simp [regIds]
      omega
    obtain ⟨st1, h1⟩ := visit_complete reg hacyc (reg.length + 1) i [] st
      (hids i (by simp)) List.Chain.nil hinv hcount
    obtain ⟨hinv1, _, _, _, _⟩ :=
      visit_sound reg (reg.length + 1) i [] st st1 h1 (hids i (by simp)) hinv
    obtain ⟨st', h'⟩ := ih st1 (fun j hj => hids j (by simp [hj])) hinv1
    exact ⟨st', by simp only [topoSortGo, h1]; exact h'⟩

theorem topological_sort_complete (reg : List FormSpec) (hacyc : ¬ Cyclic reg) :
    ∃ order, topological_sort reg = .ok order := by
  have hinv0 : SolverInv reg ([], []) := ⟨by simp, List.nodup_nil, by simp, by simp⟩
  obtain ⟨st', h⟩ :=
    topoSortGo_complete reg hacyc (regIds reg) ([], []) (fun i hi => hi) hinv0
  exact ⟨st'.2, by unfold topological_sort; rw [h]⟩

/-! ### C6 and C7 -/

/-- C6: with uniquely-keyed registrations (Python dict registry), a
cyclic declared-dependency graph makes `solve` fail with an error and
produce no result map, while an acyclic one makes `solve` succeed,
executing every registered calculator exactly once in an order where
each runs strictly after all of its registered declared dependencies. -/
theorem solver_cycle_detection_and_order (reg : List FormSpec)
    (hnd : (regIds reg).Nodup) :
    (Cyclic reg → ∀ (α : Type) (calcF : String → List (String × α) → α),
      ∃ e, TaxFormSolver.solve reg calcF = .error e) ∧
    (¬ Cyclic reg → ∀ (α : Type) (calcF : String → List (String × α) → α),
      ∃ order, topological_sort reg = .ok order ∧
        TaxFormSolver.solve reg calcF = .ok (runOrder calcF order []) ∧
        order.Nodup ∧ (∀ x, x ∈ order ↔ x ∈ regIds reg) ∧
        ∀ f d, d ∈ regDeps reg f → [d, f].Sublist order) := by
  constructor
  · intro hcyc α calcF
    cases h : topological_sort reg with
    | error e => exact ⟨e, by unfold TaxFormSolver.solve; rw [h]⟩
    | ok order => exact absurd hcyc (ok_implies_acyclic reg order h)
  · intro hacyc α calcF
    obtain ⟨order, h⟩ := topological_sort_complete reg hacyc
    obtain ⟨hnd2, hiff, hdeps⟩ := topological_sort_sound reg order h
    exact ⟨order, h, by unfold TaxFormSolver.solve; rw [h], hnd2, hiff, hdeps⟩

/-- Witness for C6 at the cyclic two-form registry a ↔ b. -/
theorem solver_cycle_detection_and_order_witness :
    ∃ e, TaxFormSolver.solve cycSpecs
      (fun (_ : String) (_ : List (String × Unit)) => ()) = .error e :=
  (solver_cycle_detection_and_order cycSpecs (by decide)).1
    ⟨"a", Relation.TransGen.tail
      (Relation.TransGen.single (show DependsOn cycSpecs "a" "b" by decide))
      (show DependsOn cycSpecs "b" "a" by decide)⟩
    Unit (fun _ _ => ())

theorem runOrder_append {α : Type} (calcF : String → List (String × α) → α) :
    ∀ (l1 l2 : List String) (acc : List (String × α)),
      runOrder calcF (l1 ++ l2) acc = runOrder calcF l2 (runOrder calcF l1 acc) := by
  intro l1
  induction l1 with
  | nil => intro l2 acc; rfl
  | cons f t ih => intro l2 acc; simp only [List.cons_append, runOrder]; exact ih l2 _

theorem runOrder_keys {α : Type} (calcF : String → List (String × α) → α) :
    ∀ (order : List String) (acc : List (String × α)),
      (runOrder calcF order acc).map Prod.fst = acc.map Prod.fst ++ order := by
  intro order
  induction order with
  | nil => intro acc; simp [runOrder]
  | cons f t ih =>
    intro acc
    simp only [runOrder]
    rw [ih]
    simp

/-- On a duplicate-free list split around `f`, anything occurring
strictly before `f` lies in the left part. -/
theorem pair_sublist_before {d f : String} :
    ∀ (l1 : List String) {l2 : List String}, (l1 ++ f :: l2).Nodup →
      [d, f].Sublist (l1 ++ f :: l2) → d ∈ l1 := by
  intro l1
  induction l1 with
  | nil =>
    intro l2 hnd hsl
    exfalso
    cases hsl with
    | cons _ h => exact (List.nodup_cons.mp hnd).1 (h.subset (by simp))
    | cons₂ _ h => exact (List.nodup_cons.mp hnd).1 (List.singleton_sublist.mp h)
  | cons x t ih =>
    intro l2 hnd hsl
    cases hsl with
    | cons₂ _ h => exact List.mem_cons_self _ _
    | cons _ h =>
      exact List.mem_cons_of_mem x (ih (List.nodup_cons.mp hnd).2 h)

/-- C7 (amended): each calculator is handed the map of ALL forms
computed earlier in the execution order — its keys are exactly the order
prefix before the calculator, a superset of (not restricted to) the
calculator's registered declared dependencies. -/
theorem solve_full_computed_map (reg : List FormSpec) (order : List String)
    (h : topological_sort reg = .ok order)
    (α : Type) (calcF : String → List (String × α) → α) :
    TaxFormSolver.solve reg calcF = .ok (runOrder calcF order []) ∧
    ∀ l1 f l2, order = l1 ++ f :: l2 →
      (runOrder calcF l1 []).map Prod.fst = l1 ∧
      (∀ d, d ∈ regDeps reg f → d ∈ l1) ∧
      runOrder calcF order [] =
        runOrder calcF l2
          ((runOrder calcF l1 []) ++ [(f, calcF f (runOrder calcF l1 []))]) := by
  obtain ⟨hnd, hiff, hdeps⟩ := topological_sort_sound reg order h
  refine ⟨by unfold TaxFormSolver.solve; rw [h], ?_⟩
  intro l1 f l2 hsplit
  subst hsplit
  refine ⟨by simpa using runOrder_keys calcF l1 [], ?_, ?_⟩
  · intro d hd
    exact pair_sublist_before l1 hnd (hdeps f d hd)
  · rw [runOrder_append]
    rfl

/-- C7 is false as stated: in the engine's own registry, the map handed
to schedule_d's calculate already contains schedule_b's result, which is
not among schedule_d's declared dependencies (and schedule_a, declaring
no dependencies at all, is handed three earlier results). -/
theorem solve_full_computed_map_cex :
    TaxFormSolver.solve engineSpecs (fun _ computed => computed.map Prod.fst) =
      .ok [("schedule_b", ([] : List String)), ("form_8949", ["schedule_b"]),
           ("schedule_d", ["schedule_b", "form_8949"]),
           ("schedule_a", ["schedule_b", "form_8949", "schedule_d"]),
           ("form_1040", ["schedule_b", "form_8949", "schedule_d", "schedule_a"])] ∧
    regDeps engineSpecs "schedule_d" = ["form_8949"] ∧
    "schedule_b" ∉ regDeps engineSpecs "schedule_d" ∧
    regDeps engineSpecs "schedule_a" = [] :=
  ⟨rfl, rfl, by decide, rfl⟩

/-- Witness for C7 (amended) at the engine registry with the
key-recording calculator. -/
theorem solve_full_computed_map_witness :
    TaxFormSolver.solve engineSpecs (fun _ computed => computed.map Prod.fst) =
      .ok (runOrder (fun _ computed => computed.map Prod.fst)
        ["schedule_b", "form_8949", "schedule_d", "schedule_a", "form_1040"] []) ∧
    ∀ l1 f l2,
      ["schedule_b", "form_8949", "schedule_d", "schedule_a", "form_1040"] =
        l1 ++ f :: l2 →
      (runOrder (fun _ computed => computed.map Prod.fst) l1 []).map Prod.fst = l1 ∧
      (∀ d, d ∈ regDeps engineSpecs f → d ∈ l1) ∧
      runOrder (fun _ computed => computed.map Prod.fst)
          ["schedule_b", "form_8949", "schedule_d", "schedule_a", "form_1040"] [] =
        runOrder (fun _ computed => computed.map Prod.fst) l2
          ((runOrder (fun _ computed => computed.map Prod.fst) l1 []) ++
            [(f, (runOrder (fun _ computed => computed.map Prod.fst) l1 []).map
              Prod.fst)]) :=
  solve_full_computed_map engineSpecs
    ["schedule_b", "form_8949", "schedule_d", "schedule_a", "form_1040"] rfl
    (List String) (fun _ computed => computed.map Prod.fst)

end TaxPrep
